import Mathlib

/-!
Shallow embedding of `src/lambda_function.py` (a voice-controlled irrigation
lambda): the session-tracking state (`start_time_global`), the three intent
handlers (activate, deactivate, moisture query), the irrigation-event records
written to the log store, and the shadow commands issued.

Timestamps are modelled as exact rationals (seconds since epoch); Python's
`round(x, 2)` is modelled as round-half-to-even on the exact value scaled by
100, and `time.gmtime` / `int(...)` truncation to whole seconds as the floor
(all timestamps of interest are nonnegative).
-/

namespace Riego

/-- Water flow rate in liters per minute (`FLOW_RATE = 5`). -/
def FLOW_RATE : ℚ := 5

/-- Round half to even at integer precision (Python's `round` tie behavior). -/
def rhe (q : ℚ) : ℤ :=
  if q - ⌊q⌋ < 1/2 then ⌊q⌋
  else if 1/2 < q - ⌊q⌋ then ⌊q⌋ + 1
  else if ⌊q⌋ % 2 = 0 then ⌊q⌋ else ⌊q⌋ + 1

/-- Python's `round(x, 2)`: two fractional decimal digits. -/
def round2 (q : ℚ) : ℚ := (rhe (100 * q) : ℚ) / 100

/-- `time.gmtime(t)` / `int(t)`: the whole-second instant of a timestamp. -/
def gmtimeSec (t : ℚ) : ℤ := ⌊t⌋

/-- The spoken soil state words in the moisture response. -/
inductive Estado
  | humedo
  | seco
deriving DecidableEq

/-- Line 160: `estado = "húmedo" if humedad < 1300 else "seco"`. -/
def clasificar (h : ℤ) : Estado :=
  if h < 1300 then Estado.humedo else Estado.seco

/-- The timestamp component of an `evento_id` f-string: either the
integer-truncated form `f"{int(t)}"` or the full float form `f"{time.time()}"`
(the latter always renders with a decimal point, so the two forms are
distinct strings). -/
inductive IdTime
  | trunc (n : ℤ)
  | exact (q : ℚ)
deriving DecidableEq

/-- An `evento_id`: timestamp part concatenated with the thing name. -/
structure EventId where
  ts : IdTime
  device : String
deriving DecidableEq

/-- The `system_status` strings the code writes: `"Desactivado"` (deactivate
handler) and `"Consulta Humedad"` (every moisture-query event). -/
inductive SystemStatus
  | desactivado
  | consultaHumedad
deriving DecidableEq

/-- One row inserted by `insertar_datos_riego`. ISO-8601 second-granularity
strings are represented by their whole-second instant. -/
structure IrrigationEvent where
  id : EventId
  startTime : ℤ
  endTime : Option ℤ
  duration : Option ℚ
  waterVolume : Option ℚ
  soilMoisture : Option ℤ
  thingId : String
  status : SystemStatus
  requestTime : ℤ
  userId : String
deriving DecidableEq

/-- The speak outputs the three handlers can produce, with their embedded
dynamic values. -/
inductive Speak
  | activado
  | errorActivar
  | desactivado (litros : ℚ)
  | noEstabaActivado
  | errorDesactivar
  | noPuedoObtenerHumedad
  | nivelHumedad (h : ℤ) (e : Estado)
  | errorHumedad
deriving DecidableEq

/-- Shadow-side calls a handler issues (attempts), in program order. -/
inductive Cmd
  | updateShadow (thing key value : String)
  | getShadow (thing : String)
  | publish (topic : String)
deriving DecidableEq

/-- Outcome of the external shadow transport for one invocation:
whether each call succeeds and what `humedad` the reported state holds. -/
structure World where
  updateOk : Bool
  publishOk : Bool
  getOk : Bool
  humedad : Option ℤ

/-- `start_time_global`: `None` or the float start time. -/
abbrev SessionState := Option ℚ

/-- Python truthiness of `start_time_global` (`if start_time_global:`):
`None` and `0.0` are falsy. -/
def truthy (s : SessionState) : Bool :=
  match s with
  | none => false
  | some t => decide (t ≠ 0)

/-- What one handler invocation produces: the spoken response, the
`start_time_global` left behind, the rows handed to the log store, and the
shadow calls attempted. -/
structure HResult where
  speak : Speak
  state : SessionState
  events : List IrrigationEvent
  cmds : List Cmd

/-- `ActivarRegadorIntentHandler.handle` (lines 83-93): sets
`start_time_global = time.time()` before the try block, then attempts the
pump-ON shadow update. -/
def activarHandle (w : World) (_s : SessionState) (now : ℚ) (thing : String) :
    HResult :=
  let s1 : SessionState := some now
  if w.updateOk then
    { speak := Speak.activado, state := s1, events := [],
      cmds := [Cmd.updateShadow thing "bomba" "ON"] }
  else
    { speak := Speak.errorActivar, state := s1, events := [],
      cmds := [Cmd.updateShadow thing "bomba" "ON"] }

/-- `DesactivarRegadorIntentHandler.handle` (lines 100-136): pump-OFF update,
then if a session is open, compute duration/volume from `start_time_global`
and `end_time`, read the shadow for `humedad`, insert the row, speak the
volume and clear the session; otherwise speak "was not active". Transport
failure anywhere in the try yields the error message with state unchanged. -/
def desactivarHandle (w : World) (s : SessionState) (endTime : ℚ)
    (thing uid : String) : HResult :=
  let cmd0 := [Cmd.updateShadow thing "bomba" "OFF"]
  if w.updateOk then
    if truthy s then
      let st := s.getD 0
      let duration := (endTime - st) / 60
      let volume := duration * FLOW_RATE
      if w.getOk then
        let ev : IrrigationEvent :=
          { id := ⟨IdTime.trunc (gmtimeSec endTime), thing⟩,
            startTime := gmtimeSec st,
            endTime := some (gmtimeSec endTime),
            duration := some (round2 duration),
            waterVolume := some (round2 volume),
            soilMoisture := w.humedad,
            thingId := thing,
            status := SystemStatus.desactivado,
            requestTime := gmtimeSec endTime,
            userId := uid }
        { speak := Speak.desactivado (round2 volume), state := none,
          events := [ev], cmds := cmd0 ++ [Cmd.getShadow thing] }
      else
        { speak := Speak.errorDesactivar, state := s, events := [],
          cmds := cmd0 ++ [Cmd.getShadow thing] }
    else
      { speak := Speak.noEstabaActivado, state := s, events := [],
        cmds := cmd0 }
  else
    { speak := Speak.errorDesactivar, state := s, events := [], cmds := cmd0 }

/-- `ConsultarHumedadIntentHandler.handle` (lines 143-219). The successive
`time.time()` calls are `t1` (line 163, first `evento_id`), `t2` (line 164,
`request_time`), `t3` (line 167 in the dry branch, or line 183 `end_time`,
or line 201), and `t4` (line 168, dry-branch `start_time_global`). In the
dry branch (`humedad > 1300`) the session start is overwritten and an
open-style row logged; in the moist branch with an open session a close-style
row is logged but `start_time_global` is NOT cleared; with no open session an
open-style row is logged and a session opened. -/
def consultarHandle (w : World) (s : SessionState) (t1 t2 t3 t4 : ℚ)
    (thing uid : String) : HResult :=
  let cmd0 := [Cmd.publish "sistema_riego/solicitud_humedad"]
  if ¬ w.publishOk then
    { speak := Speak.errorHumedad, state := s, events := [], cmds := cmd0 }
  else if ¬ w.getOk then
    { speak := Speak.errorHumedad, state := s, events := [],
      cmds := cmd0 ++ [Cmd.getShadow thing] }
  else
    match w.humedad with
    | none =>
      { speak := Speak.noPuedoObtenerHumedad, state := s, events := [],
        cmds := cmd0 ++ [Cmd.getShadow thing] }
    | some h =>
      let speak := Speak.nivelHumedad h (clasificar h)
      let reqTime := gmtimeSec t2
      let cmds := cmd0 ++ [Cmd.getShadow thing]
      if 1300 < h then
        let ev : IrrigationEvent :=
          { id := ⟨IdTime.exact t3, thing⟩,
            startTime := gmtimeSec t4,
            endTime := none, duration := none, waterVolume := none,
            soilMoisture := some h, thingId := thing,
            status := SystemStatus.consultaHumedad,
            requestTime := reqTime, userId := uid }
        { speak := speak, state := some t4, events := [ev], cmds := cmds }
      else if truthy s then
        let st := s.getD 0
        let duration := (t3 - st) / 60
        let volume := duration * FLOW_RATE
        let ev : IrrigationEvent :=
          { id := ⟨IdTime.exact t1, thing⟩,
            startTime := gmtimeSec st,
            endTime := some (gmtimeSec t3),
            duration := some (round2 duration),
            waterVolume := some (round2 volume),
            soilMoisture := some h, thingId := thing,
            status := SystemStatus.consultaHumedad,
            requestTime := reqTime, userId := uid }
        { speak := speak, state := s, events := [ev], cmds := cmds }
      else
        let ev : IrrigationEvent :=
          { id := ⟨IdTime.exact t1, thing⟩,
            startTime := gmtimeSec t3,
            endTime := none, duration := none, waterVolume := none,
            soilMoisture := some h, thingId := thing,
            status := SystemStatus.consultaHumedad,
            requestTime := reqTime, userId := uid }
        { speak := speak, state := some t3, events := [ev], cmds := cmds }

/-- The spec's formula for the logged water volume: the already-rounded
duration multiplied by the flow rate, then rounded again. Stated from the
spec's words for comparison with the code's computation, which multiplies the
unrounded duration. -/
def specWaterVolume (start endT : ℚ) : ℚ :=
  round2 (round2 ((endT - start) / 60) * FLOW_RATE)

/-- C6: a deactivation invocation with no open session appends no event row,
leaves the session state closed, and (when the shadow update succeeds) speaks
the "was not active" message. -/
theorem C6_deactivate_no_session (w : World) (endTime : ℚ) (thing uid : String) :
    (desactivarHandle w none endTime thing uid).events = [] ∧
    (desactivarHandle w none endTime thing uid).state = none ∧
    (w.updateOk = true →
      (desactivarHandle w none endTime thing uid).speak = Speak.noEstabaActivado) := by
  cases hw : w.updateOk <;> simp [desactivarHandle, truthy, hw]

/-- Witness for C6 at a concrete invocation. -/
theorem C6_witness :
    (desactivarHandle ⟨true, true, true, none⟩ none 120 "dev" "u").events = [] ∧
    (desactivarHandle ⟨true, true, true, none⟩ none 120 "dev" "u").state = none ∧
    (desactivarHandle ⟨true, true, true, none⟩ none 120 "dev" "u").speak =
      Speak.noEstabaActivado := by
  obtain ⟨h1, h2, h3⟩ := C6_deactivate_no_session ⟨true, true, true, none⟩ 120 "dev" "u"
  exact ⟨h1, h2, h3 rfl⟩

/-- C8: when the shadow read succeeds but carries no `humedad` field, the
moisture query speaks the "cannot determine moisture" message, appends no
event row, and leaves the session state unchanged. -/
theorem C8_missing_moisture (w : World) (s : SessionState) (t1 t2 t3 t4 : ℚ)
    (thing uid : String) (hp : w.publishOk = true) (hg : w.getOk = true)
    (hh : w.humedad = none) :
    (consultarHandle w s t1 t2 t3 t4 thing uid).speak = Speak.noPuedoObtenerHumedad ∧
    (consultarHandle w s t1 t2 t3 t4 thing uid).events = [] ∧
    (consultarHandle w s t1 t2 t3 t4 thing uid).state = s := by
  simp [consultarHandle, hp, hg, hh]

/-- Witness for C8 at a concrete invocation with an open session. -/
theorem C8_witness :
    (consultarHandle ⟨true, true, true, none⟩ (some 100) 10 11 12 13 "dev" "u").speak =
      Speak.noPuedoObtenerHumedad ∧
    (consultarHandle ⟨true, true, true, none⟩ (some 100) 10 11 12 13 "dev" "u").events = [] ∧
    (consultarHandle ⟨true, true, true, none⟩ (some 100) 10 11 12 13 "dev" "u").state =
      some 100 :=
  C8_missing_moisture ⟨true, true, true, none⟩ (some 100) 10 11 12 13 "dev" "u" rfl rfl rfl

/-- C9: every deactivation invocation issues the pump-OFF shadow update as its
first external call, before the open-session check; in particular the OFF
command is issued even when no session is open. -/
theorem C9_pump_off_always_sent (w : World) (s : SessionState) (endTime : ℚ)
    (thing uid : String) :
    (desactivarHandle w s endTime thing uid).cmds.head? =
      some (Cmd.updateShadow thing "bomba" "OFF") ∧
    Cmd.updateShadow thing "bomba" "OFF" ∈
      (desactivarHandle w none endTime thing uid).cmds := by
  constructor
  · cases hw : w.updateOk <;> cases hs : truthy s <;> cases hg : w.getOk <;>
      simp [desactivarHandle, hw, hs, hg]
  · cases hw : w.updateOk <;> simp [desactivarHandle, truthy, hw]

/-- C10: an activation invocation unconditionally overwrites the session
start time with the invocation time, whatever session was open before; a
subsequent successful deactivation computes duration and volume from that
most recent activation time only. -/
theorem C10_activation_overwrites (w w2 : World) (s : SessionState) (n e : ℚ)
    (thing uid : String) (hn : n ≠ 0) (hu : w2.updateOk = true)
    (hg : w2.getOk = true) :
    (activarHandle w s n thing).state = some n ∧
    ((desactivarHandle w2 (activarHandle w s n thing).state e thing uid).events.map
      IrrigationEvent.duration) = [some (round2 ((e - n) / 60))] ∧
    ((desactivarHandle w2 (activarHandle w s n thing).state e thing uid).events.map
      IrrigationEvent.waterVolume) = [some (round2 ((e - n) / 60 * FLOW_RATE))] := by
  have hstate : (activarHandle w s n thing).state = some n := by
    cases hw : w.updateOk <;> simp [activarHandle, hw]
  refine ⟨hstate, ?_, ?_⟩ <;>
    simp [hstate, desactivarHandle, truthy, hn, hu, hg]

/-- Witness for C10: activation at time 5 over an already-open session at
time 2, then deactivation at time 65. -/
theorem C10_witness :
    (activarHandle ⟨true, true, true, none⟩ (some 2) 5 "dev").state = some 5 ∧
    ((desactivarHandle ⟨true, true, true, none⟩
      (activarHandle ⟨true, true, true, none⟩ (some 2) 5 "dev").state 65 "dev" "u").events.map
      IrrigationEvent.duration) = [some (round2 ((65 - 5) / 60))] ∧
    ((desactivarHandle ⟨true, true, true, none⟩
      (activarHandle ⟨true, true, true, none⟩ (some 2) 5 "dev").state 65 "dev" "u").events.map
      IrrigationEvent.waterVolume) = [some (round2 ((65 - 5) / 60 * FLOW_RATE))] :=
  C10_activation_overwrites ⟨true, true, true, none⟩ ⟨true, true, true, none⟩
    (some 2) 5 65 "dev" "u" (by norm_num) rfl rfl

/-- C1 counterexample: with an open session (start 100) and a reading of
1000 ≤ 1300, the invocation leaves the session still open (state `some 100`),
contradicting the claim that no session is open immediately afterwards. -/
theorem C1_cex :
    truthy (some (100 : ℚ)) = true ∧ (1000 : ℤ) ≤ 1300 ∧
    (consultarHandle ⟨true, true, true, some 1000⟩ (some 100)
      200 201 202 203 "dev" "u").state ≠ none := by
  refine ⟨by norm_num [truthy], by norm_num, ?_⟩
  simp [consultarHandle, truthy]

/-- C1 (amended): a moisture reading at or below 1300 while a session is open
logs one close-style event (with end time, duration and volume, status the
generic moisture-query status) but does NOT clear the open session: the start
time is retained, so a session is still open after the invocation. -/
theorem C1_moist_close_retains_session (w : World) (s : SessionState) (st : ℚ)
    (h : ℤ) (t1 t2 t3 t4 : ℚ) (thing uid : String)
    (hp : w.publishOk = true) (hg : w.getOk = true) (hh : w.humedad = some h)
    (hle : h ≤ 1300) (hs : s = some st) (hst : st ≠ 0) :
    (consultarHandle w s t1 t2 t3 t4 thing uid).events =
      [{ id := ⟨IdTime.exact t1, thing⟩,
         startTime := gmtimeSec st,
         endTime := some (gmtimeSec t3),
         duration := some (round2 ((t3 - st) / 60)),
         waterVolume := some (round2 ((t3 - st) / 60 * FLOW_RATE)),
         soilMoisture := some h,
         thingId := thing,
         status := SystemStatus.consultaHumedad,
         requestTime := gmtimeSec t2,
         userId := uid }] ∧
    (consultarHandle w s t1 t2 t3 t4 thing uid).state = some st := by
  subst hs
  have hnot : ¬ (1300 : ℤ) < h := not_lt.mpr hle
  simp [consultarHandle, hp, hg, hh, truthy, hst, hnot]

/-- Witness for the amended C1 at a concrete invocation. -/
theorem C1_witness :
    (consultarHandle ⟨true, true, true, some 1000⟩ (some 100)
      200 201 202 203 "dev" "u").events =
      [{ id := ⟨IdTime.exact 200, "dev"⟩,
         startTime := gmtimeSec 100,
         endTime := some (gmtimeSec 202),
         duration := some (round2 ((202 - 100) / 60)),
         waterVolume := some (round2 ((202 - 100) / 60 * FLOW_RATE)),
         soilMoisture := some 1000,
         thingId := "dev",
         status := SystemStatus.consultaHumedad,
         requestTime := gmtimeSec 201,
         userId := "u" }] ∧
    (consultarHandle ⟨true, true, true, some 1000⟩ (some 100)
      200 201 202 203 "dev" "u").state = some 100 :=
  C1_moist_close_retains_session ⟨true, true, true, some 1000⟩ (some 100) 100 1000
    200 201 202 203 "dev" "u" rfl rfl rfl (by norm_num) rfl (by norm_num)

/-- C2 counterexample: a dry reading (1400 > 1300) while a session is already
open (start 50) resets the start time (the state becomes the new invocation
time, not `some 50`) and logs a fresh event, contradicting the claimed
idempotence. -/
theorem C2_cex :
    truthy (some (50 : ℚ)) = true ∧ (1300 : ℤ) < 1400 ∧
    (consultarHandle ⟨true, true, true, some 1400⟩ (some 50)
      60 61 62 63 "dev" "u").state ≠ some 50 ∧
    (consultarHandle ⟨true, true, true, some 1400⟩ (some 50)
      60 61 62 63 "dev" "u").events ≠ [] := by
  refine ⟨by norm_num [truthy], by norm_num, ?_, ?_⟩ <;>
    simp [consultarHandle, truthy]

/-- C2 (amended): a dry reading (> 1300) always overwrites the session start
with the current time and logs a fresh open-style event, whether or not a
session was already open; a moist reading (≤ 1300) with no open session logs
no close event (the logged row is open-style, with no end, duration or
volume) and opens a session. -/
theorem C2_dry_resets_moist_no_dup_close (w : World) (s : SessionState) (h : ℤ)
    (t1 t2 t3 t4 : ℚ) (thing uid : String)
    (hp : w.publishOk = true) (hg : w.getOk = true) (hh : w.humedad = some h) :
    (1300 < h →
      (consultarHandle w s t1 t2 t3 t4 thing uid).state = some t4 ∧
      (consultarHandle w s t1 t2 t3 t4 thing uid).events =
        [{ id := ⟨IdTime.exact t3, thing⟩,
           startTime := gmtimeSec t4,
           endTime := none, duration := none, waterVolume := none,
           soilMoisture := some h, thingId := thing,
           status := SystemStatus.consultaHumedad,
           requestTime := gmtimeSec t2, userId := uid }]) ∧
    (h ≤ 1300 → truthy s = false →
      (consultarHandle w s t1 t2 t3 t4 thing uid).state = some t3 ∧
      (consultarHandle w s t1 t2 t3 t4 thing uid).events =
        [{ id := ⟨IdTime.exact t1, thing⟩,
           startTime := gmtimeSec t3,
           endTime := none, duration := none, waterVolume := none,
           soilMoisture := some h, thingId := thing,
           status := SystemStatus.consultaHumedad,
           requestTime := gmtimeSec t2, userId := uid }]) := by
  constructor
  · intro hdry
    simp [consultarHandle, hp, hg, hh, hdry]
  · intro hle hs
    have hnot : ¬ (1300 : ℤ) < h := not_lt.mpr hle
    simp [consultarHandle, hp, hg, hh, hnot, hs]

/-- Witness for the amended C2: dry reading over an open session. -/
theorem C2_witness :
    (consultarHandle ⟨true, true, true, some 1400⟩ (some 50)
      60 61 62 63 "dev" "u").state = some 63 ∧
    (consultarHandle ⟨true, true, true, some 1400⟩ (some 50)
      60 61 62 63 "dev" "u").events =
      [{ id := ⟨IdTime.exact 62, "dev"⟩,
         startTime := gmtimeSec 63,
         endTime := none, duration := none, waterVolume := none,
         soilMoisture := some 1400, thingId := "dev",
         status := SystemStatus.consultaHumedad,
         requestTime := gmtimeSec 61, userId := "u" }] :=
  (C2_dry_resets_moist_no_dup_close ⟨true, true, true, some 1400⟩ (some 50) 1400
    60 61 62 63 "dev" "u" rfl rfl rfl).1 (by norm_num)

/-- C3 counterexample: closing one second after the start logs volume 0.08
(rounded from the unrounded duration times the flow rate), while the claim's
formula (rounded duration times flow rate, rounded again) gives 0.10; and the
claim's own scenario (open at t=0, close at t=120) logs nothing at all,
because a start time of 0.0 is falsy in the open-session check. -/
theorem C3_cex :
    ((desactivarHandle ⟨true, true, true, none⟩ (some 100) 101 "dev" "u").events.map
      IrrigationEvent.waterVolume) = [some (8/100)] ∧
    specWaterVolume 100 101 = 10/100 ∧ ((8 : ℚ)/100) ≠ 10/100 ∧
    (desactivarHandle ⟨true, true, true, none⟩
      (activarHandle ⟨true, true, true, none⟩ none 0 "dev").state 120 "dev" "u").events
      = [] ∧
    (desactivarHandle ⟨true, true, true, none⟩
      (activarHandle ⟨true, true, true, none⟩ none 0 "dev").state 120 "dev" "u").speak
      = Speak.noEstabaActivado := by
  refine ⟨?_, by norm_num [specWaterVolume, round2, rhe, FLOW_RATE], by norm_num, ?_, ?_⟩
  · simp [desactivarHandle, truthy]
    norm_num [round2, rhe, FLOW_RATE]
  · simp [desactivarHandle, activarHandle, truthy]
  · simp [desactivarHandle, activarHandle, truthy]

/-- C3 (amended): for every voice deactivation with a truthy (nonzero) open
session, the logged duration is `(end − start)/60` rounded to 2 decimals and
the logged volume is the UNROUNDED duration times `FLOW_RATE = 5`, rounded to
2 decimals; opening at t=100 and closing at t=220 yields duration 2.00 and
volume 10.00. -/
theorem C3_close_metrics (w : World) (st endT : ℚ) (thing uid : String)
    (hu : w.updateOk = true) (hg : w.getOk = true) (hst : st ≠ 0) :
    ((desactivarHandle w (some st) endT thing uid).events.map IrrigationEvent.duration)
      = [some (round2 ((endT - st) / 60))] ∧
    ((desactivarHandle w (some st) endT thing uid).events.map IrrigationEvent.waterVolume)
      = [some (round2 ((endT - st) / 60 * FLOW_RATE))] ∧
    (desactivarHandle w (some st) endT thing uid).speak =
      Speak.desactivado (round2 ((endT - st) / 60 * FLOW_RATE)) := by
  refine ⟨?_, ?_, ?_⟩ <;> simp [desactivarHandle, truthy, hu, hg, hst]

/-- Witness for the amended C3: the 120-second session (start 100, end 220)
logs duration 2.00 and volume 10.00. -/
theorem C3_witness :
    ((desactivarHandle ⟨true, true, true, none⟩ (some 100) 220 "dev" "u").events.map
      IrrigationEvent.duration) = [some 2] ∧
    ((desactivarHandle ⟨true, true, true, none⟩ (some 100) 220 "dev" "u").events.map
      IrrigationEvent.waterVolume) = [some 10] := by
  obtain ⟨h1, h2, _⟩ :=
    C3_close_metrics ⟨true, true, true, none⟩ 100 220 "dev" "u" rfl rfl (by norm_num)
  constructor
  · rw [h1]; norm_num [round2, rhe]
  · rw [h2]; norm_num [round2, rhe, FLOW_RATE]

/-- C4 counterexample: at a reading of exactly 1300 the spoken classification
is "seco" (dry), not "húmedo" (moist) as the claim states. -/
theorem C4_cex :
    (consultarHandle ⟨true, true, true, some 1300⟩ none 10 11 12 13 "dev" "u").speak =
      Speak.nivelHumedad 1300 Estado.seco ∧
    Speak.nivelHumedad 1300 Estado.seco ≠ Speak.nivelHumedad 1300 Estado.humedo := by
  constructor
  · simp [consultarHandle, clasificar, truthy]
  · simp

/-- C4 (amended): the spoken classification is "húmedo" only for readings
strictly below 1300 and "seco" for readings at or above 1300 (so exactly 1300
is spoken as dry), while the session-logging decision puts exactly 1300 on
the moist side: with an open session a reading of 1300 logs a close-style row
(end time present) rather than taking the dry open branch. -/
theorem C4_boundary (w : World) (s : SessionState) (h : ℤ) (t1 t2 t3 t4 : ℚ)
    (thing uid : String) (hp : w.publishOk = true) (hg : w.getOk = true)
    (hh : w.humedad = some h) :
    (h < 1300 →
      (consultarHandle w s t1 t2 t3 t4 thing uid).speak =
        Speak.nivelHumedad h Estado.humedo) ∧
    (1300 ≤ h →
      (consultarHandle w s t1 t2 t3 t4 thing uid).speak =
        Speak.nivelHumedad h Estado.seco) ∧
    (h = 1300 → truthy s = true →
      ((consultarHandle w s t1 t2 t3 t4 thing uid).events.map IrrigationEvent.endTime) =
        [some (gmtimeSec t3)]) := by
  refine ⟨?_, ?_, ?_⟩
  · intro hlt
    have hnot : ¬ (1300 : ℤ) < h := not_lt.mpr (le_of_lt hlt)
    cases hs : truthy s <;>
      simp [consultarHandle, hp, hg, hh, clasificar, hlt, hnot, hs]
  · intro hge
    have hnot : ¬ h < 1300 := not_lt.mpr hge
    by_cases hlt : 1300 < h
    · simp [consultarHandle, hp, hg, hh, clasificar, hlt, hnot]
    · cases hs : truthy s <;>
        simp [consultarHandle, hp, hg, hh, clasificar, hlt, hnot, hs]
  · intro hb hs
    subst hb
    simp [consultarHandle, hp, hg, hh, hs]

/-- Witness for the amended C4 at reading 1300 with an open session. -/
theorem C4_witness :
    (consultarHandle ⟨true, true, true, some 1300⟩ (some 100) 10 11 12 13 "dev" "u").speak =
      Speak.nivelHumedad 1300 Estado.seco ∧
    ((consultarHandle ⟨true, true, true, some 1300⟩ (some 100) 10 11 12 13 "dev" "u").events.map
      IrrigationEvent.endTime) = [some (gmtimeSec 12)] := by
  obtain ⟨_, h2, h3⟩ :=
    C4_boundary ⟨true, true, true, some 1300⟩ (some 100) 1300 10 11 12 13 "dev" "u" rfl rfl rfl
  exact ⟨h2 (by norm_num), h3 rfl (by norm_num [truthy])⟩

/-- C5 counterexample: an activation whose shadow update fails still
overwrites the session start with the invocation time (7), so the in-process
state is NOT unchanged, although the spoken error is returned. -/
theorem C5_cex :
    (activarHandle ⟨false, true, true, none⟩ none 7 "dev").speak = Speak.errorActivar ∧
    (activarHandle ⟨false, true, true, none⟩ none 7 "dev").state ≠ none := by
  constructor <;> simp [activarHandle]

/-- C5 (amended): on transport failure, deactivation and the moisture query
return the spoken error with session state unchanged and nothing logged; an
activation whose shadow update fails also returns the spoken error, but the
session start has already been overwritten with the invocation time. -/
theorem C5_transport_failure (w : World) (s : SessionState) (now endT t1 t2 t3 t4 : ℚ)
    (thing uid : String) :
    (w.updateOk = false →
      (desactivarHandle w s endT thing uid).speak = Speak.errorDesactivar ∧
      (desactivarHandle w s endT thing uid).state = s ∧
      (desactivarHandle w s endT thing uid).events = []) ∧
    (w.updateOk = true → w.getOk = false → truthy s = true →
      (desactivarHandle w s endT thing uid).speak = Speak.errorDesactivar ∧
      (desactivarHandle w s endT thing uid).state = s ∧
      (desactivarHandle w s endT thing uid).events = []) ∧
    (w.publishOk = false →
      (consultarHandle w s t1 t2 t3 t4 thing uid).speak = Speak.errorHumedad ∧
      (consultarHandle w s t1 t2 t3 t4 thing uid).state = s ∧
      (consultarHandle w s t1 t2 t3 t4 thing uid).events = []) ∧
    (w.publishOk = true → w.getOk = false →
      (consultarHandle w s t1 t2 t3 t4 thing uid).speak = Speak.errorHumedad ∧
      (consultarHandle w s t1 t2 t3 t4 thing uid).state = s ∧
      (consultarHandle w s t1 t2 t3 t4 thing uid).events = []) ∧
    (w.updateOk = false →
      (activarHandle w s now thing).speak = Speak.errorActivar ∧
      (activarHandle w s now thing).state = some now) := by
  refine ⟨?_, ?_, ?_, ?_, ?_⟩
  · intro h1; refine ⟨?_, ?_, ?_⟩ <;> simp [desactivarHandle, h1]
  · intro h1 h2 h3; refine ⟨?_, ?_, ?_⟩ <;> simp [desactivarHandle, h1, h2, h3]
  · intro h1; refine ⟨?_, ?_, ?_⟩ <;> simp [consultarHandle, h1]
  · intro h1 h2; refine ⟨?_, ?_, ?_⟩ <;> simp [consultarHandle, h1, h2]
  · intro h1; constructor <;> simp [activarHandle, h1]

/-- Witness for the amended C5 at concrete failed invocations. -/
theorem C5_witness :
    (desactivarHandle ⟨false, true, true, none⟩ (some 9) 20 "dev" "u").speak =
      Speak.errorDesactivar ∧
    (desactivarHandle ⟨false, true, true, none⟩ (some 9) 20 "dev" "u").state = some 9 ∧
    (consultarHandle ⟨false, false, true, none⟩ (some 9) 1 2 3 4 "dev" "u").state = some 9 ∧
    (activarHandle ⟨false, true, true, none⟩ (some 9) 7 "dev").state = some 7 := by
  have H1 := C5_transport_failure ⟨false, true, true, none⟩ (some 9) 7 20 1 2 3 4 "dev" "u"
  have H2 := C5_transport_failure ⟨false, false, true, none⟩ (some 9) 7 20 1 2 3 4 "dev" "u"
  exact ⟨(H1.1 rfl).1, (H1.1 rfl).2.1, (H2.2.2.1 rfl).2.1, (H1.2.2.2.2 rfl).2⟩

/-- C7 counterexample: a moisture-driven close taken with first `time.time()`
call 500.5 and end time 502 gets an event id embedding the full
(non-truncated) timestamp 500.5, which is not the integer-truncated form, and
whose instant (second 500) is not the event's end time (second 502). -/
theorem C7_cex :
    ((consultarHandle ⟨true, true, true, some 1000⟩ (some 100)
      (1001/2) 501 502 503 "dev" "u").events.map (fun e => e.id.ts)) =
      [IdTime.exact (1001/2)] ∧
    IdTime.exact ((1001 : ℚ)/2) ≠ IdTime.trunc (gmtimeSec ((1001 : ℚ)/2)) ∧
    ((consultarHandle ⟨true, true, true, some 1000⟩ (some 100)
      (1001/2) 501 502 503 "dev" "u").events.map IrrigationEvent.endTime) =
      [some 502] ∧
    gmtimeSec ((1001 : ℚ)/2) ≠ 502 := by
  refine ⟨?_, by simp, ?_, by norm_num [gmtimeSec]⟩
  · simp [consultarHandle, truthy]
  · simp [consultarHandle, truthy, gmtimeSec]

/-- C7 (amended): a voice-deactivation close gets `event_id` built from the
integer-truncated end timestamp and the device name, matching the event's end
instant; every moisture-query event instead embeds the full non-truncated
timestamp of the handler's first `time.time()` call, which for a
moisture-driven close precedes and generally differs from the end time. -/
theorem C7_event_id_forms (w w2 : World) (s : SessionState) (h : ℤ)
    (endT t1 t2 t3 t4 : ℚ) (thing uid : String)
    (hu : w.updateOk = true) (hg : w.getOk = true) (hs : truthy s = true)
    (hp2 : w2.publishOk = true) (hg2 : w2.getOk = true) (hh2 : w2.humedad = some h)
    (hle : h ≤ 1300) :
    ((desactivarHandle w s endT thing uid).events.map IrrigationEvent.id) =
      [⟨IdTime.trunc (gmtimeSec endT), thing⟩] ∧
    ((desactivarHandle w s endT thing uid).events.map IrrigationEvent.endTime) =
      [some (gmtimeSec endT)] ∧
    ((consultarHandle w2 s t1 t2 t3 t4 thing uid).events.map IrrigationEvent.id) =
      [⟨IdTime.exact t1, thing⟩] ∧
    ((consultarHandle w2 s t1 t2 t3 t4 thing uid).events.map IrrigationEvent.endTime) =
      [some (gmtimeSec t3)] := by
  have hnot : ¬ (1300 : ℤ) < h := not_lt.mpr hle
  refine ⟨?_, ?_, ?_, ?_⟩ <;>
    simp [desactivarHandle, consultarHandle, hu, hg, hs, hp2, hg2, hh2, hnot]

/-- Witness for the amended C7 at concrete close invocations. -/
theorem C7_witness :
    ((desactivarHandle ⟨true, true, true, none⟩ (some 100) 220 "dev" "u").events.map
      IrrigationEvent.id) = [⟨IdTime.trunc (gmtimeSec 220), "dev"⟩] ∧
    ((consultarHandle ⟨true, true, true, some 1000⟩ (some 100)
      (1001/2) 501 502 503 "dev" "u").events.map IrrigationEvent.id) =
      [⟨IdTime.exact (1001/2), "dev"⟩] := by
  obtain ⟨h1, _, h3, _⟩ :=
    C7_event_id_forms ⟨true, true, true, none⟩ ⟨true, true, true, some 1000⟩
      (some 100) 1000 220 (1001/2) 501 502 503 "dev" "u"
      rfl rfl (by norm_num [truthy]) rfl rfl rfl (by norm_num)
  exact ⟨h1, h3⟩

end Riego
